import Mathlib

/-!
Shallow embedding of `src/app.py` (a Streamlit front-end with a credential
rotation loop and two conversational modes), together with theorems settling
the specification claims about it.

Modelling conventions:
* `st.secrets` is modelled by `SecretsConfig`: the `[gemini]` section may be
  absent, present without a `keys` entry, or present with an ordered key list.
* Construction of a `genai.GenerativeModel` after `genai.configure(api_key=k)`
  may fail locally; whether it succeeds is an external fact about the
  credential, modelled by an oracle `ok : String → Bool` carried in `Env`.
* A remote `generate_content` call is modelled by an oracle
  `gen : Model → List ContentPart → Except String String` (error message or response
  text), also carried in `Env`.
* `get_working_model` returns, besides the result of the Python function
  (a model, or `None` on the two distinct paths at lines 26 and 42), the list
  of credentials on which construction was attempted, so that "never attempts
  a credential" and "tries no further credentials" are stateable.
-/

/-- Shape of `st.secrets` as tested at line 22 of `app.py`:
`"gemini" in st.secrets and "keys" in st.secrets["gemini"]`. -/
inductive SecretsConfig where
  | noGemini
  | geminiNoKeys
  | geminiKeys (keys : List String)
deriving DecidableEq, Repr

/-- Embedding of a constructed `genai.GenerativeModel`: the configured API key
together with the `system_instruction` argument (absent in the manual-key
fallback at line 87). -/
structure Model where
  key : String
  system_instruction : Option String
deriving DecidableEq, Repr

/-- Result of `get_working_model`: a model, or `None` returned on the
no-pool path (line 26), or `None` returned after the `st.error` banner on the
exhausted path (lines 41-42). -/
inductive AcquireResult where
  | noPool
  | exhausted
  | handle (m : Model)
deriving DecidableEq, Repr

/-- One element of the `content` list sent to `generate_content` in document
mode (line 92-96): the prompt text or an uploaded file blob. -/
structure FilePart where
  mime_type : String
  data : String
deriving DecidableEq, Repr

/-- Content part: plain text or a tagged binary blob. -/
inductive ContentPart where
  | text (s : String)
  | blob (f : FilePart)
deriving DecidableEq, Repr

/-- External-world oracles: whether constructing a client on a given
credential succeeds, and what each remote call returns. -/
structure Env where
  ok : String → Bool
  gen : Model → List ContentPart → Except String String

/-- Loop of lines 29-39: try keys in order; on the first credential whose
construction succeeds return the model immediately; otherwise fall through to
the exhausted path. The second component records the credentials on which
construction was attempted, in order. -/
def tryKeys (ok : String → Bool) (sys : String) : List String → AcquireResult × List String
  | [] => (AcquireResult.exhausted, [])
  | k :: rest =>
    if ok k then
      (AcquireResult.handle ⟨k, some sys⟩, [k])
    else
      ((tryKeys ok sys rest).1, k :: (tryKeys ok sys rest).2)

/-- Embedding of `get_working_model` (lines 20-42): if the `[gemini]` section
or its `keys` entry is missing, return on the no-pool path without attempting
any credential; otherwise scan the keys in order. -/
def get_working_model (ok : String → Bool) (secrets : SecretsConfig)
    (system_instruction : String) : AcquireResult × List String :=
  match secrets with
  | SecretsConfig.geminiKeys keys => tryKeys ok system_instruction keys
  | _ => (AcquireResult.noPool, [])

/-- Banner displayed by `st.error` at line 41 when every pooled credential
failed construction. -/
def exhaustedMsg : String := "💀 ALL KEYS EXHAUSTED. Add more accounts to Secrets."

/-- One entry of `st.session_state.doc_messages`: a role and content string
(lines 76, 100). -/
structure DocMsg where
  role : String
  content : String
deriving DecidableEq, Repr

/-- Directive passed to the Selector in document mode (line 82). -/
def researchDirective : String := "You are a PhD Researcher. Use LaTeX for math."

/-- Content list built at lines 92-96: the prompt text followed by one blob
per uploaded file. -/
def docContent (prompt : String) (files : List FilePart) : List ContentPart :=
  ContentPart.text prompt :: files.map ContentPart.blob

/-- Outcome of one document-mode submission: the transcript after the action,
the `st.error` messages displayed, whether an uncaught exception ended the
script run, and whether the manual-key fallback branch was taken. -/
structure DocOutcome where
  msgs : List DocMsg
  errors : List String
  crashed : Bool
  manualTried : Bool
deriving DecidableEq, Repr

/-- Body of the try block at lines 90-102: submit the content and either
append the assistant entry or display the inline error `f"Error: {e}"`. -/
def generateDoc (env : Env) (files : List FilePart) (msgs : List DocMsg)
    (prompt : String) (m : Model) : List DocMsg × List String :=
  match env.gen m (docContent prompt files) with
  | Except.ok t => (msgs ++ [⟨"assistant", t⟩], [])
  | Except.error e => (msgs, ["Error: " ++ e])

/-- Embedding of one document-mode submission (lines 75-102). The user entry
is appended first (line 76); then the pool is scanned; the manual-key
fallback at lines 85-87 is reachable only when the sidebar defined
`manual_key`, i.e. when no `[gemini]` section exists, and its two
construction calls stand outside any try block, so a construction failure of
the manual credential ends the script run uncaught. -/
def doc_submit (env : Env) (secrets : SecretsConfig) (manual_key : String)
    (files : List FilePart) (msgs0 : List DocMsg) (prompt : String) : DocOutcome :=
  let msgs := msgs0 ++ [⟨"user", prompt⟩]
  match get_working_model env.ok secrets researchDirective with
  | (AcquireResult.handle m, _) =>
    let r := generateDoc env files msgs prompt m
    ⟨r.1, r.2, false, false⟩
  | (AcquireResult.exhausted, _) =>
    -- with a `[gemini]` section present the sidebar never defined `manual_key`,
    -- so the test `'manual_key' in locals()` at line 85 is false
    ⟨msgs, [exhaustedMsg], false, false⟩
  | (AcquireResult.noPool, _) =>
    match secrets with
    | SecretsConfig.noGemini =>
      if manual_key ≠ "" then
        if env.ok manual_key then
          let r := generateDoc env files msgs prompt ⟨manual_key, none⟩
          ⟨r.1, r.2, false, true⟩
        else
          -- lines 86-87 are outside any try: construction failure escapes
          ⟨msgs, [], true, true⟩
      else ⟨msgs, [], false, false⟩
    | _ => ⟨msgs, [], false, false⟩

/-- Debate persona directive of step 1 (line 118). -/
def theoristDirective : String := "You are a Formal Theorist. Use LaTeX. Be stubborn."

/-- Debate persona directive of step 2 (line 130). -/
def appliedDirective : String := "You are an Applied Scientist. Critique the Theorist."

/-- Debate persona directive of step 3 (line 141). -/
def verdictDirective : String := "You are Pavel, Head Researcher. Synthesize."

/-- Prompt of step 1 (line 121). -/
def theoristPrompt (topic : String) : String := "Theoretical view: " ++ topic

/-- Prompt of step 2 (line 133): contains the step-1 response verbatim. -/
def appliedPrompt (topic resp_1 : String) : String :=
  "Practical view: " ++ topic ++ ". Critique: " ++ resp_1

/-- Prompt of step 3 (line 144): contains both prior responses verbatim. -/
def verdictPrompt (resp_1 resp_2 : String) : String :=
  "Theorist: " ++ resp_1 ++ ". Applied: " ++ resp_2 ++ ". Verdict?"

/-- User entry appended to `debate_history` at line 114. -/
def youEntry (topic : String) : String := "**You:** " ++ topic

/-- HTML wrapper of the theorist entry (line 122). -/
def theoristHtml (r : String) : String :=
  "<div class=\x27theorist\x27><b>🔵 Theorist:</b><br>" ++ r ++ "</div>"

/-- HTML wrapper of the applied entry (line 134). -/
def appliedHtml (r : String) : String :=
  "<div class=\x27applied\x27><b>🟢 Applied:</b><br>" ++ r ++ "</div>"

/-- HTML wrapper of the verdict entry (line 145). -/
def verdictHtml (r : String) : String :=
  "<div class=\x27verdict\x27><b>⚖️ FINAL VERDICT:</b><br>" ++ r ++ "</div>"

/-- Message of the Python NameError raised when an f-string references a
local that was never assigned because the step that would assign it failed. -/
def nameErrorMsg (v : String) : String :=
  "name \x27" ++ v ++ "\x27 is not defined"

/-- Step 1 of a debate submission (lines 116-125): acquire a theorist handle,
submit the theorist prompt, and on success retain `resp_1` and produce the
theorist entry; every failure is caught and yields no entry. Result:
(`resp_1`, entries appended, error messages displayed). -/
def runStep1 (e1 : Env) (secrets : SecretsConfig) (topic : String) :
    Option String × List String × List String :=
  match get_working_model e1.ok secrets theoristDirective with
  | (AcquireResult.handle m, _) =>
    match e1.gen m [ContentPart.text (theoristPrompt topic)] with
    | Except.ok t => (some t, [theoristHtml t], [])
    | Except.error e => (none, [], [e])
  | (AcquireResult.exhausted, _) => (none, [], [exhaustedMsg])
  | (AcquireResult.noPool, _) => (none, [], [])

/-- Step 2 of a debate submission (lines 127-137): the prompt references
`resp_1`; if step 1 failed, `resp_1` was never assigned and the f-string at
line 133 raises a NameError inside the try block, caught at line 137 before
any remote call is made. -/
def runStep2 (e2 : Env) (secrets : SecretsConfig) (topic : String)
    (resp_1 : Option String) : Option String × List String × List String :=
  match get_working_model e2.ok secrets appliedDirective with
  | (AcquireResult.handle m, _) =>
    match resp_1 with
    | none => (none, [], [nameErrorMsg "resp_1"])
    | some t1 =>
      match e2.gen m [ContentPart.text (appliedPrompt topic t1)] with
      | Except.ok t => (some t, [appliedHtml t], [])
      | Except.error e => (none, [], [e])
  | (AcquireResult.exhausted, _) => (none, [], [exhaustedMsg])
  | (AcquireResult.noPool, _) => (none, [], [])

/-- Step 3 of a debate submission (lines 139-148): the prompt references
`resp_1` and then `resp_2`; if either is unassigned the f-string at line 144
raises a NameError inside the try block, caught at line 148 before any
remote call is made. Result: (entries appended, error messages displayed). -/
def runStep3 (e3 : Env) (secrets : SecretsConfig)
    (resp_1 resp_2 : Option String) : List String × List String :=
  match get_working_model e3.ok secrets verdictDirective with
  | (AcquireResult.handle m, _) =>
    match resp_1, resp_2 with
    | none, _ => ([], [nameErrorMsg "resp_1"])
    | some _, none => ([], [nameErrorMsg "resp_2"])
    | some t1, some t2 =>
      match e3.gen m [ContentPart.text (verdictPrompt t1 t2)] with
      | Except.ok t => ([verdictHtml t], [])
      | Except.error e => ([], [e])
  | (AcquireResult.exhausted, _) => ([], [exhaustedMsg])
  | (AcquireResult.noPool, _) => ([], [])

/-- Outcome of one debate-mode submission: the transcript after the action
and the error messages displayed. No exception escapes in debate mode. -/
structure DebateOutcome where
  hist : List String
  errors : List String
deriving DecidableEq, Repr

/-- Embedding of one debate-mode submission (lines 112-148): append the user
entry, then run the three steps in order, each acquiring its own handle from
the pool with the environment current at that step. -/
def debate_submit (e1 e2 e3 : Env) (secrets : SecretsConfig)
    (hist0 : List String) (topic : String) : DebateOutcome :=
  let s1 := runStep1 e1 secrets topic
  let s2 := runStep2 e2 secrets topic s1.1
  let s3 := runStep3 e3 secrets s1.1 s2.1
  ⟨hist0 ++ [youEntry topic] ++ s1.2.1 ++ s2.2.1 ++ s3.1,
   s1.2.2 ++ s2.2.2 ++ s3.2⟩

/-- Session state persisted by Streamlit across reruns: the secret store
(read-only) and the two transcripts. -/
structure SessionState where
  secrets : SecretsConfig
  doc_messages : List DocMsg
  debate_history : List String
deriving Repr

/-- One user action, carrying the external-world behavior at the time of the
action (in a debate, one environment per step). -/
inductive UserAction where
  | doc (env : Env) (manual_key : String) (files : List FilePart) (prompt : String)
  | debate (e1 e2 e3 : Env) (topic : String)

/-- Effect of one user action on the session state. With a `[gemini]`
section lacking a `keys` entry, line 50 of the sidebar raises a KeyError
before either mode handler runs, so the transcripts are untouched. The
walrus-if guards at lines 75 and 112 skip the handler on an empty
submission. -/
def step (s : SessionState) (a : UserAction) : SessionState :=
  match s.secrets with
  | SecretsConfig.geminiNoKeys => s
  | _ =>
    match a with
    | UserAction.doc env mk files prompt =>
      if prompt = "" then s
      else
        { s with doc_messages :=
            (doc_submit env s.secrets mk files s.doc_messages prompt).msgs }
    | UserAction.debate e1 e2 e3 topic =>
      if topic = "" then s
      else
        { s with debate_history :=
            (debate_submit e1 e2 e3 s.secrets s.debate_history topic).hist }

/-- Session run: fold the user actions over the state. -/
def runActions (s : SessionState) (as : List UserAction) : SessionState :=
  as.foldl step s

/-- Concrete environment in which every construction succeeds and every
remote call returns the text "R". -/
def envOkAll : Env := ⟨fun _ => true, fun _ _ => Except.ok "R"⟩

/-- Concrete environment in which every construction succeeds and every
remote call fails with the message "quota". -/
def envGenFail : Env := ⟨fun _ => true, fun _ _ => Except.error "quota"⟩

/-- Concrete environment in which every construction fails. -/
def envNoConstruct : Env := ⟨fun _ => false, fun _ _ => Except.error "boom"⟩

/-- Tryout lemma: on the first succeeding key the scan stops. -/
theorem tryKeys_first (ok : String → Bool) (sys : String) (keys : List String)
    (k : String) (h : keys.find? ok = some k) :
    tryKeys ok sys keys
      = (AcquireResult.handle ⟨k, some sys⟩, keys.takeWhile (fun x => !ok x) ++ [k]) := by
  induction keys with
  | nil => simp [List.find?] at h
  | cons a as ih =>
    by_cases ha : ok a
    · rw [List.find?_cons_of_pos _ ha] at h
      cases h
      simp [tryKeys, ha, List.takeWhile_cons, ha]
    · rw [List.find?_cons_of_neg _ (by simpa using ha)] at h
      have := ih h
      simp [tryKeys, ha, List.takeWhile_cons, this]

/-- Lemma: if every key fails construction, the scan exhausts the whole pool. -/
theorem tryKeys_all_fail (ok : String → Bool) (sys : String) (keys : List String)
    (h : ∀ k ∈ keys, ok k = false) :
    tryKeys ok sys keys = (AcquireResult.exhausted, keys) := by
  induction keys with
  | nil => simp [tryKeys]
  | cons a as ih =>
    have ha : ok a = false := h a (by simp)
    have := ih (fun k hk => h k (by simp [hk]))
    simp [tryKeys, ha, this]

/-- C1: for every credential sequence in which at least one credential
constructs successfully (its first such element being `k`, as selected by
`List.find?`), `get_working_model` returns a handle bound to `k` and to the
requested directive, and the attempted credentials are exactly the failing
prefix followed by `k` — nothing after the first success is tried. -/
theorem acquire_first_success (ok : String → Bool) (keys : List String)
    (sys k : String) (h : keys.find? ok = some k) :
    get_working_model ok (SecretsConfig.geminiKeys keys) sys
      = (AcquireResult.handle ⟨k, some sys⟩, keys.takeWhile (fun x => !ok x) ++ [k]) := by
  simpa [get_working_model] using tryKeys_first ok sys keys k h

/-- Witness for C1 on a concrete pool where the first two credentials fail. -/
theorem acquire_first_success_witness :
    (["bad1", "bad2", "good", "later"].find? (fun x => x == "good") = some "good")
    ∧ get_working_model (fun x => x == "good")
        (SecretsConfig.geminiKeys ["bad1", "bad2", "good", "later"]) "X"
      = (AcquireResult.handle ⟨"good", some "X"⟩,
         ["bad1", "bad2", "good", "later"].takeWhile (fun x => !(x == "good")) ++ ["good"]) :=
  ⟨by decide, acquire_first_success (fun x => x == "good")
      ["bad1", "bad2", "good", "later"] "X" "good" (by decide)⟩

/-- C4: when the credential section is absent (no `[gemini]` section, or a
`[gemini]` section without a `keys` entry), `get_working_model` returns on the
no-pool path, attempts no credential, and that outcome is distinct from the
exhausted outcome. -/
theorem acquire_no_pool (ok : String → Bool) (sys : String) :
    get_working_model ok SecretsConfig.noGemini sys = (AcquireResult.noPool, [])
    ∧ get_working_model ok SecretsConfig.geminiNoKeys sys = (AcquireResult.noPool, [])
    ∧ AcquireResult.noPool ≠ AcquireResult.exhausted :=
  ⟨rfl, rfl, fun h => AcquireResult.noConfusion h⟩

/-- C6: for every credential sequence in which every credential fails
construction, `get_working_model` returns on the exhausted path after
attempting exactly the whole pool; a second call with the same pool and any
directive yields the same result; and no user action modifies the pool. -/
theorem acquire_exhausted_idempotent (ok : String → Bool) (keys : List String)
    (sys : String) (h : ∀ k ∈ keys, ok k = false) :
    get_working_model ok (SecretsConfig.geminiKeys keys) sys
      = (AcquireResult.exhausted, keys)
    ∧ (∀ sys2 : String,
        get_working_model ok (SecretsConfig.geminiKeys keys) sys2
          = (AcquireResult.exhausted, keys))
    ∧ (∀ (s : SessionState) (a : UserAction), (step s a).secrets = s.secrets) := by
  refine ⟨?_, fun sys2 => ?_, fun s a => ?_⟩
  · simpa [get_working_model] using tryKeys_all_fail ok sys keys h
  · simpa [get_working_model] using tryKeys_all_fail ok sys2 keys h
  · rcases s with ⟨sec, dm, dh⟩
    cases sec <;> cases a <;> simp [step] <;> split <;> rfl

/-- Witness for C6 on a concrete two-credential pool that fails entirely. -/
theorem acquire_exhausted_idempotent_witness :
    get_working_model (fun _ => false) (SecretsConfig.geminiKeys ["bad1", "bad2"]) "X"
      = (AcquireResult.exhausted, ["bad1", "bad2"])
    ∧ get_working_model (fun _ => false) (SecretsConfig.geminiKeys ["bad1", "bad2"]) "Y"
      = (AcquireResult.exhausted, ["bad1", "bad2"]) := by
  have h := acquire_exhausted_idempotent (fun _ => false) ["bad1", "bad2"] "X"
    (by intro k _; rfl)
  exact ⟨h.1, h.2.1 "Y"⟩

/-- Lemma: the try block of document mode only ever appends to the message
list it is given. -/
theorem generateDoc_extends (env : Env) (files : List FilePart)
    (msgs : List DocMsg) (prompt : String) (m : Model) :
    ∃ t, (generateDoc env files msgs prompt m).1 = msgs ++ t := by
  unfold generateDoc
  cases env.gen m (docContent prompt files) with
  | ok t => exact ⟨[⟨"assistant", t⟩], rfl⟩
  | error e => exact ⟨[], by simp⟩

/-- Lemma: one document-mode submission only ever appends to the transcript. -/
theorem doc_submit_extends (env : Env) (secrets : SecretsConfig) (mk : String)
    (files : List FilePart) (msgs0 : List DocMsg) (prompt : String) :
    ∃ t, (doc_submit env secrets mk files msgs0 prompt).msgs = msgs0 ++ t := by
  unfold doc_submit
  rcases hp : get_working_model env.ok secrets researchDirective with ⟨r, tr⟩
  cases r with
  | handle m =>
    obtain ⟨t, ht⟩ := generateDoc_extends env files (msgs0 ++ [⟨"user", prompt⟩]) prompt m
    exact ⟨[⟨"user", prompt⟩] ++ t, by simp [ht]⟩
  | exhausted => exact ⟨[⟨"user", prompt⟩], rfl⟩
  | noPool =>
    cases secrets with
    | noGemini =>
      by_cases hmk : mk = ""
      · exact ⟨[⟨"user", prompt⟩], by simp [hmk]⟩
      · by_cases hok : env.ok mk
        · obtain ⟨t, ht⟩ :=
            generateDoc_extends env files (msgs0 ++ [⟨"user", prompt⟩]) prompt ⟨mk, none⟩
          exact ⟨[⟨"user", prompt⟩] ++ t, by simp [hmk, hok, ht]⟩
        · exact ⟨[⟨"user", prompt⟩], by simp [hmk, hok]⟩
    | geminiNoKeys => exact ⟨[⟨"user", prompt⟩], rfl⟩
    | geminiKeys keys => exact ⟨[⟨"user", prompt⟩], rfl⟩

/-- Lemma: one debate-mode submission only ever appends to the transcript. -/
theorem debate_submit_extends (e1 e2 e3 : Env) (secrets : SecretsConfig)
    (hist0 : List String) (topic : String) :
    ∃ t, (debate_submit e1 e2 e3 secrets hist0 topic).hist = hist0 ++ t := by
  refine ⟨[youEntry topic]
      ++ (runStep1 e1 secrets topic).2.1
      ++ (runStep2 e2 secrets topic (runStep1 e1 secrets topic).1).2.1
      ++ (runStep3 e3 secrets (runStep1 e1 secrets topic).1
            (runStep2 e2 secrets topic (runStep1 e1 secrets topic).1).1).1, ?_⟩
  simp [debate_submit, List.append_assoc]

/-- Lemma: every user action only appends to each of the two transcripts. -/
theorem step_extends (s : SessionState) (a : UserAction) :
    ∃ t1 t2, (step s a).doc_messages = s.doc_messages ++ t1
      ∧ (step s a).debate_history = s.debate_history ++ t2 := by
  rcases s with ⟨sec, dm, dh⟩
  cases sec with
  | geminiNoKeys => exact ⟨[], [], by simp [step], by simp [step]⟩
  | noGemini =>
    cases a with
    | doc env mk files prompt =>
      by_cases hp : prompt = ""
      · exact ⟨[], [], by simp [step, hp], by simp [step, hp]⟩
      · obtain ⟨t, ht⟩ := doc_submit_extends env SecretsConfig.noGemini mk files dm prompt
        exact ⟨t, [], by simp [step, hp, ht], by simp [step, hp]⟩
    | debate e1 e2 e3 topic =>
      by_cases hp : topic = ""
      · exact ⟨[], [], by simp [step, hp], by simp [step, hp]⟩
      · obtain ⟨t, ht⟩ := debate_submit_extends e1 e2 e3 SecretsConfig.noGemini dh topic
        exact ⟨[], t, by simp [step, hp], by simp [step, hp, ht]⟩
  | geminiKeys keys =>
    cases a with
    | doc env mk files prompt =>
      by_cases hp : prompt = ""
      · exact ⟨[], [], by simp [step, hp], by simp [step, hp]⟩
      · obtain ⟨t, ht⟩ :=
          doc_submit_extends env (SecretsConfig.geminiKeys keys) mk files dm prompt
        exact ⟨t, [], by simp [step, hp, ht], by simp [step, hp]⟩
    | debate e1 e2 e3 topic =>
      by_cases hp : topic = ""
      · exact ⟨[], [], by simp [step, hp], by simp [step, hp]⟩
      · obtain ⟨t, ht⟩ :=
          debate_submit_extends e1 e2 e3 (SecretsConfig.geminiKeys keys) dh topic
        exact ⟨[], t, by simp [step, hp], by simp [step, hp, ht]⟩

/-- Lemma: a whole run of user actions only appends to each transcript. -/
theorem runActions_extends (as : List UserAction) (s : SessionState) :
    ∃ t1 t2, (runActions s as).doc_messages = s.doc_messages ++ t1
      ∧ (runActions s as).debate_history = s.debate_history ++ t2 := by
  induction as generalizing s with
  | nil => exact ⟨[], [], by simp [runActions], by simp [runActions]⟩
  | cons a as ih =>
    obtain ⟨t1, t2, h1, h2⟩ := step_extends s a
    obtain ⟨u1, u2, g1, g2⟩ := ih (step s a)
    refine ⟨t1 ++ u1, t2 ++ u2, ?_, ?_⟩
    · simpa [runActions, h1, List.append_assoc] using g1
    · simpa [runActions, h2, List.append_assoc] using g2

/-- C2: the transcripts are append-only — after any sequence of user actions
in either mode, each transcript is a prefix-extension of the transcript after
any earlier prefix of actions; no entry is ever removed, edited, or
reordered. -/
theorem transcript_append_only (s : SessionState) (l1 l2 : List UserAction) :
    (runActions s l1).doc_messages <+: (runActions s (l1 ++ l2)).doc_messages
    ∧ (runActions s l1).debate_history <+: (runActions s (l1 ++ l2)).debate_history := by
  have hsplit : runActions s (l1 ++ l2) = runActions (runActions s l1) l2 := by
    simp [runActions, List.foldl_append]
  obtain ⟨t1, t2, h1, h2⟩ := runActions_extends l2 (runActions s l1)
  rw [hsplit]
  exact ⟨⟨t1, h1.symm⟩, ⟨t2, h2.symm⟩⟩

/-- Lemma: a successful step 1 retains the response and appends exactly the
theorist entry. -/
theorem runStep1_success (e1 : Env) (secrets : SecretsConfig) (topic : String)
    (m : Model) (t1 : String)
    (hm : (get_working_model e1.ok secrets theoristDirective).1 = AcquireResult.handle m)
    (hg : e1.gen m [ContentPart.text (theoristPrompt topic)] = Except.ok t1) :
    runStep1 e1 secrets topic = (some t1, [theoristHtml t1], []) := by
  rcases hp : get_working_model e1.ok secrets theoristDirective with ⟨r, tr⟩
  rw [hp] at hm
  simp only at hm
  subst hm
  simp [runStep1, hp, hg]

/-- Lemma: if step 1 fails every way it can (no handle, or a remote error on
the theorist prompt), it retains nothing and appends nothing. -/
theorem runStep1_fail (e1 : Env) (secrets : SecretsConfig) (topic : String)
    (h : ∀ m : Model,
        (get_working_model e1.ok secrets theoristDirective).1 = AcquireResult.handle m →
        ∃ err, e1.gen m [ContentPart.text (theoristPrompt topic)] = Except.error err) :
    (runStep1 e1 secrets topic).1 = none ∧ (runStep1 e1 secrets topic).2.1 = [] := by
  rcases hp : get_working_model e1.ok secrets theoristDirective with ⟨r, tr⟩
  cases r with
  | handle m =>
    obtain ⟨err, herr⟩ := h m (by rw [hp])
    simp [runStep1, hp, herr]
  | exhausted => simp [runStep1, hp]
  | noPool => simp [runStep1, hp]

/-- Lemma: step 2 with an unassigned `resp_1` appends nothing and retains
nothing: the f-string NameError is caught before any remote call. -/
theorem runStep2_noresp (e2 : Env) (secrets : SecretsConfig) (topic : String) :
    (runStep2 e2 secrets topic none).1 = none
    ∧ (runStep2 e2 secrets topic none).2.1 = [] := by
  rcases hp : get_working_model e2.ok secrets appliedDirective with ⟨r, tr⟩
  cases r <;> simp [runStep2, hp]

/-- Lemma: if step 2 fails every way it can, it retains nothing and appends
nothing. -/
theorem runStep2_fail (e2 : Env) (secrets : SecretsConfig) (topic t1 : String)
    (h : ∀ m : Model,
        (get_working_model e2.ok secrets appliedDirective).1 = AcquireResult.handle m →
        ∃ err, e2.gen m [ContentPart.text (appliedPrompt topic t1)] = Except.error err) :
    (runStep2 e2 secrets topic (some t1)).1 = none
    ∧ (runStep2 e2 secrets topic (some t1)).2.1 = [] := by
  rcases hp : get_working_model e2.ok secrets appliedDirective with ⟨r, tr⟩
  cases r with
  | handle m =>
    obtain ⟨err, herr⟩ := h m (by rw [hp])
    simp [runStep2, hp, herr]
  | exhausted => simp [runStep2, hp]
  | noPool => simp [runStep2, hp]

/-- Lemma: step 3 with an unassigned `resp_1` never appends a verdict. -/
theorem runStep3_noresp1 (e3 : Env) (secrets : SecretsConfig) (r2 : Option String) :
    (runStep3 e3 secrets none r2).1 = [] := by
  rcases hp : get_working_model e3.ok secrets verdictDirective with ⟨r, tr⟩
  cases r <;> simp [runStep3, hp]

/-- Lemma: step 3 with an unassigned `resp_2` never appends a verdict. -/
theorem runStep3_noresp2 (e3 : Env) (secrets : SecretsConfig) (r1 : Option String) :
    (runStep3 e3 secrets r1 none).1 = [] := by
  rcases hp : get_working_model e3.ok secrets verdictDirective with ⟨r, tr⟩
  cases r <;> cases r1 <;> simp [runStep3, hp]

/-- C3: in debate mode a failed step aborts the transcript effect of all
later steps while earlier entries remain. First conjunct: if step 1 succeeds
and step 2 fails, the submission leaves exactly the user entry and the
theorist entry — for every step-3 environment, no verdict entry is ever
appended for that topic. Second conjunct: if step 1 fails, the submission
leaves exactly the user entry. -/
theorem debate_short_circuit :
    (∀ (e1 e2 e3 : Env) (secrets : SecretsConfig) (hist0 : List String)
        (topic : String) (m1 : Model) (t1 : String),
      (get_working_model e1.ok secrets theoristDirective).1 = AcquireResult.handle m1 →
      e1.gen m1 [ContentPart.text (theoristPrompt topic)] = Except.ok t1 →
      (∀ m2 : Model,
        (get_working_model e2.ok secrets appliedDirective).1 = AcquireResult.handle m2 →
        ∃ err, e2.gen m2 [ContentPart.text (appliedPrompt topic t1)] = Except.error err) →
      (debate_submit e1 e2 e3 secrets hist0 topic).hist
        = hist0 ++ [youEntry topic, theoristHtml t1])
    ∧ (∀ (e1 e2 e3 : Env) (secrets : SecretsConfig) (hist0 : List String)
        (topic : String),
      (∀ m1 : Model,
        (get_working_model e1.ok secrets theoristDirective).1 = AcquireResult.handle m1 →
        ∃ err, e1.gen m1 [ContentPart.text (theoristPrompt topic)] = Except.error err) →
      (debate_submit e1 e2 e3 secrets hist0 topic).hist = hist0 ++ [youEntry topic]) := by
  constructor
  · intro e1 e2 e3 secrets hist0 topic m1 t1 hm1 hg1 h2
    have h1 := runStep1_success e1 secrets topic m1 t1 hm1 hg1
    have hs2 := runStep2_fail e2 secrets topic t1 h2
    unfold debate_submit
    rw [h1]
    simp only at hs2 ⊢
    rw [hs2.1, hs2.2]
    rw [runStep3_noresp2 e3 secrets (some t1)]
    simp
  · intro e1 e2 e3 secrets hist0 topic h1
    have hs1 := runStep1_fail e1 secrets topic h1
    simp only [debate_submit]
    rw [hs1.1, hs1.2]
    rw [(runStep2_noresp e2 secrets topic).1, (runStep2_noresp e2 secrets topic).2]
    rw [runStep3_noresp1 e3 secrets]
    simp

/-- Witness for C3: a pool of one good key, a working theorist call, a
step-2 remote failure, and a step-1-failing run. -/
theorem debate_short_circuit_witness :
    ((debate_submit envOkAll envGenFail envOkAll (SecretsConfig.geminiKeys ["k"])
        [] "T").hist = [] ++ [youEntry "T", theoristHtml "R"])
    ∧ ((debate_submit envGenFail envGenFail envGenFail (SecretsConfig.geminiKeys ["k"])
        [] "T").hist = [] ++ [youEntry "T"]) := by
  constructor
  · exact debate_short_circuit.1 envOkAll envGenFail envOkAll
      (SecretsConfig.geminiKeys ["k"]) [] "T" ⟨"k", some theoristDirective⟩ "R"
      rfl rfl (fun m2 _ => ⟨"quota", rfl⟩)
  · exact debate_short_circuit.2 envGenFail envGenFail envGenFail
      (SecretsConfig.geminiKeys ["k"]) [] "T" (fun m1 _ => ⟨"quota", rfl⟩)

/-- Lemma: a successful step 2 retains the response and appends exactly the
applied entry. -/
theorem runStep2_success (e2 : Env) (secrets : SecretsConfig) (topic t1 : String)
    (m : Model) (t2 : String)
    (hm : (get_working_model e2.ok secrets appliedDirective).1 = AcquireResult.handle m)
    (hg : e2.gen m [ContentPart.text (appliedPrompt topic t1)] = Except.ok t2) :
    runStep2 e2 secrets topic (some t1) = (some t2, [appliedHtml t2], []) := by
  rcases hp : get_working_model e2.ok secrets appliedDirective with ⟨r, tr⟩
  rw [hp] at hm
  simp only at hm
  subst hm
  simp [runStep2, hp, hg]

/-- Lemma: a successful step 3 appends exactly the verdict entry. -/
theorem runStep3_success (e3 : Env) (secrets : SecretsConfig) (t1 t2 : String)
    (m : Model) (t3 : String)
    (hm : (get_working_model e3.ok secrets verdictDirective).1 = AcquireResult.handle m)
    (hg : e3.gen m [ContentPart.text (verdictPrompt t1 t2)] = Except.ok t3) :
    runStep3 e3 secrets (some t1) (some t2) = ([verdictHtml t3], []) := by
  rcases hp : get_working_model e3.ok secrets verdictDirective with ⟨r, tr⟩
  rw [hp] at hm
  simp only at hm
  subst hm
  simp [runStep3, hp, hg]

/-- C7: in a fully successful debate run the transcript gains exactly the
four entries user, theorist, applied, verdict in order; the prompt that
generated the applied entry contains the theorist response verbatim, and the
prompt that generated the verdict entry contains both the theorist and the
applied responses verbatim. -/
theorem debate_full_success (e1 e2 e3 : Env) (secrets : SecretsConfig)
    (hist0 : List String) (topic : String) (m1 m2 m3 : Model) (t1 t2 t3 : String)
    (hm1 : (get_working_model e1.ok secrets theoristDirective).1 = AcquireResult.handle m1)
    (hg1 : e1.gen m1 [ContentPart.text (theoristPrompt topic)] = Except.ok t1)
    (hm2 : (get_working_model e2.ok secrets appliedDirective).1 = AcquireResult.handle m2)
    (hg2 : e2.gen m2 [ContentPart.text (appliedPrompt topic t1)] = Except.ok t2)
    (hm3 : (get_working_model e3.ok secrets verdictDirective).1 = AcquireResult.handle m3)
    (hg3 : e3.gen m3 [ContentPart.text (verdictPrompt t1 t2)] = Except.ok t3) :
    (debate_submit e1 e2 e3 secrets hist0 topic).hist
      = hist0 ++ [youEntry topic, theoristHtml t1, appliedHtml t2, verdictHtml t3]
    ∧ (∃ a b, appliedPrompt topic t1 = a ++ t1 ++ b)
    ∧ (∃ a b c, verdictPrompt t1 t2 = a ++ t1 ++ b ++ t2 ++ c) := by
  refine ⟨?_, ⟨"Practical view: " ++ topic ++ ". Critique: ", "", by
      rw [String.append_empty]; rfl⟩,
    ⟨"Theorist: ", ". Applied: ", ". Verdict?", rfl⟩⟩
  have h1 := runStep1_success e1 secrets topic m1 t1 hm1 hg1
  have h2 := runStep2_success e2 secrets topic t1 m2 t2 hm2 hg2
  have h3 := runStep3_success e3 secrets t1 t2 m3 t3 hm3 hg3
  simp only [debate_submit]
  rw [h1]
  simp only
  rw [h2]
  simp only
  rw [h3]
  simp

/-- Witness for C7 with a one-key pool that always constructs and a remote
service that always answers "R". -/
theorem debate_full_success_witness :
    (debate_submit envOkAll envOkAll envOkAll (SecretsConfig.geminiKeys ["k"]) [] "T").hist
      = [] ++ [youEntry "T", theoristHtml "R", appliedHtml "R", verdictHtml "R"]
    ∧ (∃ a b, appliedPrompt "T" "R" = a ++ "R" ++ b)
    ∧ (∃ a b c, verdictPrompt "R" "R" = a ++ "R" ++ b ++ "R" ++ c) :=
  debate_full_success envOkAll envOkAll envOkAll (SecretsConfig.geminiKeys ["k"]) [] "T"
    ⟨"k", some theoristDirective⟩ ⟨"k", some appliedDirective⟩ ⟨"k", some verdictDirective⟩
    "R" "R" "R" rfl rfl rfl rfl rfl rfl

/-- C5: in document mode a remote-call failure is caught and surfaced as the
inline error message, the script run does not die, and the transcript after
the action holds exactly the prior entries plus the user entry — no partial
assistant entry is appended. -/
theorem doc_remote_failure_transcript (env : Env) (secrets : SecretsConfig)
    (mk : String) (files : List FilePart) (msgs0 : List DocMsg)
    (prompt : String) (m : Model) (e : String)
    (hm : (get_working_model env.ok secrets researchDirective).1 = AcquireResult.handle m)
    (he : env.gen m (docContent prompt files) = Except.error e) :
    (doc_submit env secrets mk files msgs0 prompt).msgs = msgs0 ++ [⟨"user", prompt⟩]
    ∧ (doc_submit env secrets mk files msgs0 prompt).errors = ["Error: " ++ e]
    ∧ (doc_submit env secrets mk files msgs0 prompt).crashed = false := by
  rcases hp : get_working_model env.ok secrets researchDirective with ⟨r, tr⟩
  rw [hp] at hm
  simp only at hm
  subst hm
  simp [doc_submit, hp, generateDoc, he]

/-- Witness for C5: a one-key pool whose remote call fails with "quota",
next to an earlier transcript entry that remains intact. -/
theorem doc_remote_failure_transcript_witness :
    (doc_submit envGenFail (SecretsConfig.geminiKeys ["k"]) "" [] [⟨"user", "old"⟩] "q").msgs
      = [⟨"user", "old"⟩] ++ [⟨"user", "q"⟩]
    ∧ (doc_submit envGenFail (SecretsConfig.geminiKeys ["k"]) "" [] [⟨"user", "old"⟩] "q").errors
      = ["Error: " ++ "quota"]
    ∧ (doc_submit envGenFail (SecretsConfig.geminiKeys ["k"]) "" [] [⟨"user", "old"⟩] "q").crashed
      = false :=
  doc_remote_failure_transcript envGenFail (SecretsConfig.geminiKeys ["k"]) "" []
    [⟨"user", "old"⟩] "q" ⟨"k", some researchDirective⟩ "quota" rfl rfl

/-- C8: the manually supplied credential is a fallback of last resort — if
the pool yields a handle the manual branch is never taken, and whenever the
manual branch is taken the Selector had reported no pool or exhaustion. -/
theorem manual_key_last_resort (env : Env) (secrets : SecretsConfig) (mk : String)
    (files : List FilePart) (msgs0 : List DocMsg) (prompt : String) :
    (∀ m : Model,
      (get_working_model env.ok secrets researchDirective).1 = AcquireResult.handle m →
      (doc_submit env secrets mk files msgs0 prompt).manualTried = false)
    ∧ ((doc_submit env secrets mk files msgs0 prompt).manualTried = true →
      (get_working_model env.ok secrets researchDirective).1 = AcquireResult.noPool
      ∨ (get_working_model env.ok secrets researchDirective).1 = AcquireResult.exhausted) := by
  rcases hp : get_working_model env.ok secrets researchDirective with ⟨r, tr⟩
  cases r with
  | handle m =>
    refine ⟨fun m2 hm2 => ?_, fun htried => ?_⟩
    · simp [doc_submit, hp]
    · exfalso
      simp [doc_submit, hp] at htried
  | exhausted =>
    refine ⟨fun m2 hm2 => ?_, fun htried => Or.inr rfl⟩
    exact absurd hm2 (by simp)
  | noPool =>
    refine ⟨fun m2 hm2 => ?_, fun htried => Or.inl rfl⟩
    exact absurd hm2 (by simp)

/-- Witness for C8: with a working one-key pool the manual branch is not
taken; with no credential section the Selector reported no pool. -/
theorem manual_key_last_resort_witness :
    (doc_submit envOkAll (SecretsConfig.geminiKeys ["k"]) "mk" [] [] "q").manualTried = false
    ∧ ((get_working_model envOkAll.ok SecretsConfig.noGemini researchDirective).1
        = AcquireResult.noPool
      ∨ (get_working_model envOkAll.ok SecretsConfig.noGemini researchDirective).1
        = AcquireResult.exhausted) :=
  ⟨(manual_key_last_resort envOkAll (SecretsConfig.geminiKeys ["k"]) "mk" [] [] "q").1
      ⟨"k", some researchDirective⟩ rfl,
   (manual_key_last_resort envOkAll SecretsConfig.noGemini "mk" [] [] "q").2 rfl⟩

/-- Lemma: every handle the key scan produces is bound to the directive the
scan was asked for. -/
theorem tryKeys_handle_sys (ok : String → Bool) (sys : String) (keys : List String)
    (m : Model) (h : (tryKeys ok sys keys).1 = AcquireResult.handle m) :
    m.system_instruction = some sys := by
  induction keys with
  | nil => simp [tryKeys] at h
  | cons a as ih =>
    by_cases ha : ok a
    · simp [tryKeys, ha] at h
      rw [← h]
    · simp [tryKeys, ha] at h
      exact ih h

/-- C9 counterexample: with no credential section, a non-empty manual key
whose construction fails, and any document prompt, the submission ends with
an uncaught exception — a handle-construction failure escapes, so not every
failure is handled at the point closest to the call. -/
theorem no_escape_counterexample :
    (doc_submit envNoConstruct SecretsConfig.noGemini "mk" [] [] "q").crashed = true := by
  rfl

/-- C9 amended: in document mode the script run dies exactly when the manual
fallback constructs on a failing manual credential (no credential section, a
non-empty manual key whose construction fails — lines 86-87 sit outside any
try block); every other failure, in either mode, is caught at the point
closest to the call. -/
theorem doc_submit_crash_iff (env : Env) (secrets : SecretsConfig) (mk : String)
    (files : List FilePart) (msgs0 : List DocMsg) (prompt : String) :
    (doc_submit env secrets mk files msgs0 prompt).crashed = true
    ↔ (secrets = SecretsConfig.noGemini ∧ mk ≠ "" ∧ env.ok mk = false) := by
  cases secrets with
  | noGemini =>
    by_cases hmk : mk = ""
    · simp [doc_submit, get_working_model, hmk]
    · by_cases hok : env.ok mk
      · simp only [doc_submit, get_working_model, hmk, hok]
        simp [generateDoc, hok]
        cases env.gen ⟨mk, none⟩ (docContent prompt files) <;> simp [hmk]
      · simp [doc_submit, get_working_model, hmk, hok]
  | geminiNoKeys => simp [doc_submit, get_working_model]
  | geminiKeys keys =>
    rcases hp : get_working_model env.ok (SecretsConfig.geminiKeys keys) researchDirective
      with ⟨r, tr⟩
    cases r with
    | handle m =>
      simp only [doc_submit, hp]
      cases env.gen m (docContent prompt files) <;> simp [generateDoc]
    | exhausted => simp [doc_submit, hp]
    | noPool => simp [doc_submit, hp]

/-- C10: every handle acquired from the pool is bound to the directive passed
to the Selector, while the manual-fallback handle is constructed with no
behavioral directive — when it serves a document submission, the assistant
entry comes from a call on the handle whose system instruction is `none`. -/
theorem manual_handle_unbound :
    (∀ (ok : String → Bool) (keys : List String) (sys : String) (m : Model)
        (tr : List String),
      get_working_model ok (SecretsConfig.geminiKeys keys) sys = (AcquireResult.handle m, tr) →
      m.system_instruction = some sys)
    ∧ (∀ (env : Env) (mk : String) (files : List FilePart) (msgs0 : List DocMsg)
        (prompt t : String), mk ≠ "" → env.ok mk = true →
      env.gen ⟨mk, none⟩ (docContent prompt files) = Except.ok t →
      (doc_submit env SecretsConfig.noGemini mk files msgs0 prompt).msgs
        = msgs0 ++ [⟨"user", prompt⟩, ⟨"assistant", t⟩]) := by
  constructor
  · intro ok keys sys m tr h
    have h1 : (tryKeys ok sys keys).1 = AcquireResult.handle m := by
      simpa [get_working_model] using congrArg Prod.fst h
    exact tryKeys_handle_sys ok sys keys m h1
  · intro env mk files msgs0 prompt t hmk hok hgen
    simp [doc_submit, get_working_model, hmk, hok, generateDoc, hgen]

/-- Witness for C10: a pooled handle carries its directive, and a document
submission served by the manual key appends the assistant entry produced by
the directive-free handle. -/
theorem manual_handle_unbound_witness :
    ((⟨"k", some "S"⟩ : Model).system_instruction = some "S")
    ∧ (doc_submit envOkAll SecretsConfig.noGemini "mk" [] [] "q").msgs
        = [] ++ [⟨"user", "q"⟩, ⟨"assistant", "R"⟩] :=
  ⟨manual_handle_unbound.1 (fun _ => true) ["k"] "S" ⟨"k", some "S"⟩ ["k"] rfl,
   manual_handle_unbound.2 envOkAll "mk" [] [] "q" "R" (by decide) rfl rfl⟩
